import Mathlib

/-!
Verification development for the webhook-driven Telegram bot
(`lambdafunction.py`, `detailsharsham.py`).

Python strings are modelled through their character lists; the helpers
`pyStrip`, `pyLower`, `pyCapitalize`, `pyIntOfString` model the Python
builtins `str.strip()`, `str.lower()`, `str.capitalize()` and `int(...)`
on the ASCII inputs the bot handles.  External collaborators (the
DynamoDB verified-users table, the S3 store, the Telegram transport and
the local `/tmp` file system) are modelled as explicit state together
with outcome oracles: a Boolean or enum parameter says whether the
corresponding external call raises, mirroring the `try/except` structure
of the source.  All outbound effects are recorded as `Action` values.
-/

namespace Bot

/-- Model of Python `str.strip()` on a character list: drop whitespace
from both ends. -/
def pyStripL (l : List Char) : List Char :=
  ((l.dropWhile Char.isWhitespace).reverse.dropWhile Char.isWhitespace).reverse

/-- Model of Python `str.strip()`. -/
def pyStrip (s : String) : String := ⟨pyStripL s.data⟩

/-- Model of Python `str.lower()` (ASCII range). -/
def pyLower (s : String) : String := ⟨s.data.map Char.toLower⟩

/-- Model of Python `str.capitalize()` (ASCII range): first character
upper-cased, all remaining characters lower-cased. -/
def pyCapitalize (s : String) : String :=
  match s.data with
  | [] => ""
  | c :: rest => ⟨c.toUpper :: rest.map Char.toLower⟩

/-- Embedding of `re.sub(r'\D', '', str(phone))` in `normalize_phone`
(detailsharsham.py, line 55): keep only the digit characters. -/
def cleanDigitsL (l : List Char) : List Char := l.filter Char.isDigit

/-- Embedding of the branch structure of `TelegramBot.normalize_phone`
(detailsharsham.py, lines 57-66) applied to the already-cleaned digit
list `c`:
`if len(cleaned) == 10`, `elif len(cleaned) == 12 and
cleaned.startswith("91")`, `elif len(cleaned) == 13 and
cleaned.startswith("+91")`, else return `cleaned` unchanged.  The
f-string `f"+91 {a} {b}"` becomes the character list
`'+' :: '9' :: '1' :: ' ' :: (a ++ ' ' :: b)`, and the Python slices
`cleaned[i:j]` become `take`/`drop` on the list. -/
def formatCleaned (c : List Char) : List Char :=
  if c.length = 10 then
    '+' :: '9' :: '1' :: ' ' :: (c.take 5 ++ ' ' :: c.drop 5)
  else if c.length = 12 ∧ c.take 2 = ['9', '1'] then
    '+' :: '9' :: '1' :: ' ' :: ((c.drop 2).take 5 ++ ' ' :: c.drop 7)
  else if c.length = 13 ∧ c.take 3 = ['+', '9', '1'] then
    '+' :: '9' :: '1' :: ' ' :: ((c.drop 3).take 5 ++ ' ' :: c.drop 8)
  else c

/-- Embedding of `TelegramBot.normalize_phone` (detailsharsham.py,
lines 48-66). -/
def normalize_phone (phone : String) : String :=
  ⟨formatCleaned (cleanDigitsL phone.data)⟩

/-- One item of the DynamoDB verified-users table:
`{'chat_id': ..., 'phone_number': ..., 'verified_at': ...}`
(detailsharsham.py, lines 189-195). -/
structure LedgerItem where
  chat_id : Int
  phone_number : String
  verified_at : String
deriving DecidableEq, Repr

/-- The verified-users DynamoDB table, newest item first.  `get_item`
returns the first item carrying the key, so consing a fresh item models
DynamoDB's overwrite-on-put semantics. -/
abbrev LedgerState := List LedgerItem

/-- DynamoDB `get_item(Key={'chat_id': chat_id})`, successful case:
the stored item for that key, if any. -/
def getItem (st : LedgerState) (chat_id : Int) : Option LedgerItem :=
  st.find? (fun it => it.chat_id == chat_id)

/-- Embedding of `TelegramBot.is_user_verified` (detailsharsham.py,
lines 164-181): on a successful read the result is `'Item' in response`;
a raised read error is caught and the function returns `False`.
`readFails` says whether the DynamoDB call raises. -/
def is_user_verified (readFails : Bool) (st : LedgerState) (chat_id : Int) : Bool :=
  if readFails then false else (getItem st chat_id).isSome

/-- Embedding of `TelegramBot.save_verified_user` (detailsharsham.py,
lines 183-200): `put_item` of the new record; a raised write error is
caught, logged and swallowed, and the function returns nothing either
way.  `writeFails` says whether the DynamoDB call raises. -/
def save_verified_user (writeFails : Bool) (st : LedgerState) (chat_id : Int)
    (phone_number : String) (now : String) : LedgerState :=
  if writeFails then st else ⟨chat_id, phone_number, now⟩ :: st

/-- Embedding of `TelegramBot.verify_contact` (detailsharsham.py,
lines 202-214): normalize the number, test membership in
`self.allowed_numbers`; on a match call `save_verified_user` and return
`True`, otherwise return `False`.  The result pairs the reported Boolean
with the resulting ledger state. -/
def verify_contact (writeFails : Bool) (allowed_numbers : List String)
    (st : LedgerState) (chat_id : Int) (phone_number : String) (now : String) :
    Bool × LedgerState :=
  if allowed_numbers.contains (normalize_phone phone_number) then
    (true, save_verified_user writeFails st chat_id (normalize_phone phone_number) now)
  else
    (false, st)

/-- One row of the contacts spreadsheet (`contacts.xlsx`), with the three
columns the code reads.  Rows are modelled with all columns present, so
`row.get('Name', 'N/A')` and `row.get('Number', 'N/A')` read the fields
directly and the missing-`Category`-column guard of `get_contacts`
cannot fire. -/
structure ContactRow where
  category : String
  name : String
  number : String
deriving DecidableEq, Repr

/-- One outbound call of the core: a Telegram `sendMessage`, the
contact-request prompt of `request_contact` (detailsharsham.py,
lines 146-162), or a `sendDocument` upload. -/
inductive Action where
  | sendMessage (chat_id : Int) (text : String)
  | requestContact (chat_id : Int)
  | sendDocument (chat_id : Int) (file_key : String) (caption : String)
deriving DecidableEq, Repr

/-- The category filter of `get_contacts` (detailsharsham.py, line 229):
`contacts_df["Category"].astype(str).str.strip().str.lower() ==
category.lower()`. -/
def categoryMatches (category : String) (row : ContactRow) : Bool :=
  pyLower (pyStrip row.category) == pyLower category

/-- The matching predicate in the words of the spec: the row's category,
trimmed and lower-cased, equals the (already lower-case) token. -/
def specCategoryMatches (category : String) (row : ContactRow) : Bool :=
  pyLower (pyStrip row.category) == category

/-- One contact line of the reply (detailsharsham.py, line 246):
`f"• **{name}**\n  📞 \x60{formatted_number}\x60\n\n"` with the number
normalized at send time. -/
def contactLine (row : ContactRow) : String :=
  "• **" ++ row.name ++ "**\n  📞 `" ++ normalize_phone row.number ++ "`\n\n"

/-- The "no contacts found" reply of `get_contacts` (detailsharsham.py,
line 232). -/
def noContactsMsg (category : String) : String :=
  "🚫 No contacts found for `" ++ pyCapitalize category ++
    "`. Please check the command or spelling!"

/-- The composed contact-list reply of `get_contacts` (detailsharsham.py,
lines 235-248): the header part followed by one part per filtered row,
joined by `"".join(message_parts)` and then stripped. -/
def contactsMsg (category : String) (rows : List ContactRow) : String :=
  pyStrip (String.join
    (("📌 **" ++ pyCapitalize category ++ " Contacts:**\n\n") :: rows.map contactLine))

/-- Embedding of `TelegramBot.get_contacts` (detailsharsham.py,
lines 216-253), returning the messages it sends: filter the rows by
`categoryMatches`; if the result is empty send the "no contacts found"
message, otherwise send the composed list. -/
def get_contacts (contacts_df : List ContactRow) (chat_id : Int) (category : String) :
    List Action :=
  if (contacts_df.filter (categoryMatches category)).isEmpty then
    [.sendMessage chat_id (noContactsMsg category)]
  else
    [.sendMessage chat_id (contactsMsg category (contacts_df.filter (categoryMatches category)))]

/-- Outcome of the S3 `download_file` call in `send_document`
(detailsharsham.py, line 262): success, or one of the caught exception
classes. -/
inductive FetchOutcome where
  | ok
  | noSuchBucket
  | noSuchKey
  | otherError
deriving DecidableEq, Repr

/-- Outcome of the Telegram `sendDocument` POST in `send_document`
(detailsharsham.py, line 274): success, a `RequestException`, or any
other raised error. -/
inductive SendOutcome where
  | ok
  | requestError
  | otherError
deriving DecidableEq, Repr

/-- Model of `os.path.basename`: the component after the last `/`. -/
def basename (s : String) : String :=
  ⟨s.data.foldl (fun acc c => if c = '/' then [] else acc ++ [c]) []⟩

/-- The local `/tmp` file system, as the list of paths that exist. -/
abbrev FileSystem := List String

/-- Embedding of `TelegramBot.send_document` (detailsharsham.py,
lines 255-295).  The `try` block downloads the blob to
`local_file_path` and posts it; each caught exception class sends its
distinct message; the `finally` block removes `local_file_path` when it
exists.  Returns the resulting file system and the outbound actions. -/
def send_document (fs : FileSystem) (fetch : FetchOutcome) (post : SendOutcome)
    (chat_id : Int) (file_key : String) (caption : Option String) :
    FileSystem × List Action :=
  let local_file_path := "/tmp/" ++ basename file_key
  let afterTry : FileSystem × List Action :=
    match fetch with
    | .noSuchBucket =>
        (fs, [.sendMessage chat_id "❌ Error: The file storage bucket could not be found."])
    | .noSuchKey =>
        (fs, [.sendMessage chat_id
          ("❌ Error: The requested document '" ++ file_key ++ "' was not found.")])
    | .otherError =>
        (fs, [.sendMessage chat_id
          "❌ An unexpected error occurred while processing your document request."])
    | .ok =>
        match post with
        | .ok =>
            (local_file_path :: fs, [.sendDocument chat_id file_key (caption.getD "")])
        | .requestError =>
            (local_file_path :: fs, [.sendMessage chat_id
              "❌ An error occurred while sending the document via Telegram."])
        | .otherError =>
            (local_file_path :: fs, [.sendMessage chat_id
              "❌ An unexpected error occurred while processing your document request."])
  (afterTry.1.filter (fun p => p ≠ local_file_path), afterTry.2)

/-- The JSON value found at `message.chat.id`: a JSON number or a JSON
string, the two shapes `int(chat_id_raw)` is applied to
(lambdafunction.py, line 51). -/
inductive ChatIdValue where
  | jsonInt (n : Int)
  | jsonStr (s : String)
deriving DecidableEq, Repr

/-- Numeric value of a list of decimal digit characters. -/
def digitsVal (l : List Char) : Nat :=
  l.foldl (fun n c => 10 * n + (c.toNat - 48)) 0

/-- Model of Python `int(s)` on a string: optional surrounding
whitespace, an optional sign, then at least one decimal digit; anything
else raises `ValueError` (`none`).  Digit-group underscores are not
modelled. -/
def pyIntOfString (s : String) : Option Int :=
  match pyStripL s.data with
  | [] => none
  | '+' :: rest =>
      if rest ≠ [] ∧ rest.all Char.isDigit then some (digitsVal rest) else none
  | '-' :: rest =>
      if rest ≠ [] ∧ rest.all Char.isDigit then some (-(digitsVal rest : Int)) else none
  | l => if l.all Char.isDigit then some (digitsVal l) else none

/-- Model of `int(chat_id_raw)`: a JSON number converts directly, a JSON
string converts through `pyIntOfString`; `none` means the conversion
raises. -/
def pyInt : ChatIdValue → Option Int
  | .jsonInt n => some n
  | .jsonStr s => pyIntOfString s

/-- The shared-contact payload of a Telegram message:
`message["contact"]`, with its optional `user_id` and its
`phone_number`. -/
structure ContactPayload where
  user_id : Option Int
  phone_number : String
deriving DecidableEq, Repr

/-- The fields of `body["message"]` that the handler reads. -/
structure IncomingMessage where
  chat_id : Option ChatIdValue
  text : Option String
  contact : Option ContactPayload
deriving DecidableEq, Repr

/-- The webhook event: missing `body` key, undecodable JSON body, or a
decoded body whose `message` field is `msg` (an absent `message` key
behaves like a message with no fields, since `body.get("message", {})`
then yields `{}`). -/
inductive Event where
  | noBody
  | badJson
  | message (msg : IncomingMessage)
deriving DecidableEq, Repr

/-- The observable outcome of one `lambda_handler` invocation: the HTTP
status code of the returned response, the outbound actions performed,
and the resulting ledger state. -/
structure HandlerResult where
  statusCode : Nat
  actions : List Action
  ledger : LedgerState
deriving DecidableEq, Repr

/-- The fixed list of contact categories (lambdafunction.py, line 95). -/
def contact_categories : List String :=
  ["auto", "housekeeping", "milkman", "authorities", "electrician",
   "plumber", "services", "paperboy", "shops"]

/-- The fixed S3 key of the PDF document (detailsharsham.py, line 32). -/
def WASTE_MANAGEMENT_PDF_KEY : String := "waste_management.pdf"

/-- The "unrecognized command" reply (lambdafunction.py, line 124),
which interpolates `user_message_text`. -/
def unrecognizedMsg (t : String) : String :=
  "🤖 Unrecognized command: `" ++ t ++ "`. Please use `/help` to see the available options."

/-- The successful-verification reply (lambdafunction.py, line 65). -/
def verifiedMsg : String :=
  "✅ You are now verified! You can now use the bot and commands like `/housekeeping`."

/-- The failed-verification reply (lambdafunction.py, line 69). -/
def verificationFailedMsg : String :=
  "🚫 Verification failed. Your number is not recognized by our system."

/-- The welcome-back reply to `/start` from a verified user
(lambdafunction.py, line 82). -/
def welcomeBackMsg : String :=
  "✅ Welcome back! You are already verified. Use `/help` to see available commands."

/-- The reply to an empty text from a verified user (lambdafunction.py,
line 87). -/
def nonTextMsg : String :=
  "Please send a text command. You can use `/help` to see the options."

/-- The static help text (lambdafunction.py, lines 107-120). -/
def helpText : String :=
  "📌 **Available Commands:**\n" ++
  "- `/housekeeping`\n" ++
  "- `/auto`\n" ++
  "- `/milkman`\n" ++
  "- `/authorities`\n" ++
  "- `/electrician`\n" ++
  "- `/plumber`\n" ++
  "- `/services`\n" ++
  "- `/shops`\n" ++
  "- `/paperboy`\n" ++
  "- `/wastemanagementpdf` (for the PDF guide)\n\n" ++
  "You can type the command with or without the `/`."

/-- Embedding of the command normalization (lambdafunction.py, line 91):
`user_message_text[1:] if user_message_text.startswith('/') else
user_message_text`. -/
def stripSlash (s : String) : String :=
  if s.data.take 1 = ['/'] then ⟨s.data.drop 1⟩ else s

/-- Embedding of the verified-user command handling of `lambda_handler`
(lambdafunction.py, lines 77-126), given the already stripped and
lower-cased `user_message_text`; returns the outbound actions (the
ledger is not touched on this path).  The `/wastemanagementpdf` branch
records the `send_document` invocation as one action. -/
def handle_verified (contacts_df : List ContactRow) (chat_id : Int)
    (user_message_text : String) : List Action :=
  if user_message_text = "/start" then
    [.sendMessage chat_id welcomeBackMsg]
  else if user_message_text = "" then
    [.sendMessage chat_id nonTextMsg]
  else if contact_categories.contains (stripSlash user_message_text) then
    get_contacts contacts_df chat_id (stripSlash user_message_text)
  else if stripSlash user_message_text = "wastemanagementpdf" then
    [.sendDocument chat_id WASTE_MANAGEMENT_PDF_KEY "Here is your Waste Management Guide."]
  else if stripSlash user_message_text = "help" then
    [.sendMessage chat_id helpText]
  else
    [.sendMessage chat_id (unrecognizedMsg user_message_text)]

/-- Embedding of the unverified-user gate of `lambda_handler`
(lambdafunction.py, lines 57-75): a contact payload whose `user_id`
equals the chat id goes through `verify_contact` and yields the
confirmation or rejection message; anything else yields the
contact-share challenge of `request_contact`. -/
def handle_unverified (writeFails : Bool) (allowed_numbers : List String)
    (st : LedgerState) (chat_id : Int) (msg : IncomingMessage) (now : String) :
    List Action × LedgerState :=
  match msg.contact with
  | some c =>
      if c.user_id = some chat_id then
        match verify_contact writeFails allowed_numbers st chat_id c.phone_number now with
        | (true, st2) => ([.sendMessage chat_id verifiedMsg], st2)
        | (false, st2) => ([.sendMessage chat_id verificationFailedMsg], st2)
      else
        ([.requestContact chat_id], st)
  | none => ([.requestContact chat_id], st)

/-- Embedding of `lambda_handler` (lambdafunction.py, lines 23-148).
Missing `body`, undecodable JSON and a missing chat id give the 400
responses; a chat id `int(...)` cannot convert raises, is caught by the
top-level `except`, whose own apology `int(error_chat_id)` raises again
and is swallowed, so a bare 500 with no actions results.  Otherwise the
verification gate runs: an unverified chat goes through
`handle_unverified`, a verified chat through `handle_verified` with
`message.get("text", "").strip().lower()`. -/
def lambda_handler (readFails writeFails : Bool) (allowed_numbers : List String)
    (contacts_df : List ContactRow) (now : String) (st : LedgerState)
    (event : Event) : HandlerResult :=
  match event with
  | .noBody => ⟨400, [], st⟩
  | .badJson => ⟨400, [], st⟩
  | .message msg =>
      match msg.chat_id with
      | none => ⟨400, [], st⟩
      | some raw =>
          match pyInt raw with
          | none => ⟨500, [], st⟩
          | some chat_id =>
              if !(is_user_verified readFails st chat_id) then
                ⟨200, (handle_unverified writeFails allowed_numbers st chat_id msg now).1,
                  (handle_unverified writeFails allowed_numbers st chat_id msg now).2⟩
              else
                ⟨200, handle_verified contacts_df chat_id (pyLower (pyStrip (msg.text.getD ""))), st⟩

/-! Helper lemmas about the phone normalizer. -/

lemma cleanDigitsL_of_digits (l : List Char) (h : ∀ c ∈ l, c.isDigit = true) :
    cleanDigitsL l = l :=
  List.filter_eq_self.mpr h

lemma formatCleaned_ten (l : List Char) (h : l.length = 10) :
    formatCleaned l = '+' :: '9' :: '1' :: ' ' :: (l.take 5 ++ ' ' :: l.drop 5) := by
  unfold formatCleaned
  rw [if_pos h]

lemma formatCleaned_cons91 (l : List Char) (h : l.length = 10) :
    formatCleaned ('9' :: '1' :: l) = '+' :: '9' :: '1' :: ' ' :: (l.take 5 ++ ' ' :: l.drop 5) := by
  unfold formatCleaned
  rw [if_neg (by simp [h]), if_pos ⟨by simp [h], rfl⟩]
  rfl

lemma strCat_canonical (t d : List Char) :
    ("+91 " ++ (⟨t⟩ : String) ++ " " ++ (⟨d⟩ : String))
      = (⟨'+' :: '9' :: '1' :: ' ' :: (t ++ ' ' :: d)⟩ : String) := by
  apply String.ext
  have e1 : "+91 ".data = ['+', '9', '1', ' '] := rfl
  have e2 : " ".data = [' '] := rfl
  simp [String.data_append, e1, e2]

/-- Claim C3: for every string of exactly 10 digits `D`, `normalize_phone D`
is the fixed prefix followed by the first five digits, a space, and the
last five digits; and `normalize_phone` applied to `"91" ++ D` or
`"+91" ++ D` yields the identical canonical string. -/
theorem c3_normalize_canonical (D : String) (hlen : D.data.length = 10)
    (hdig : ∀ c ∈ D.data, c.isDigit = true) :
    normalize_phone D = "+91 " ++ (⟨D.data.take 5⟩ : String) ++ " " ++ (⟨D.data.drop 5⟩ : String)
    ∧ normalize_phone ("91" ++ D) = normalize_phone D
    ∧ normalize_phone ("+91" ++ D) = normalize_phone D := by
  have hclean : cleanDigitsL D.data = D.data := cleanDigitsL_of_digits _ hdig
  have h1 : normalize_phone D
      = (⟨'+' :: '9' :: '1' :: ' ' :: (D.data.take 5 ++ ' ' :: D.data.drop 5)⟩ : String) := by
    unfold normalize_phone
    rw [hclean, formatCleaned_ten _ hlen]
  have hdata91 : ("91" ++ D).data = '9' :: '1' :: D.data := by
    rw [String.data_append]; rfl
  have hdataP91 : ("+91" ++ D).data = '+' :: '9' :: '1' :: D.data := by
    rw [String.data_append]; rfl
  have hc91 : cleanDigitsL ('9' :: '1' :: D.data) = '9' :: '1' :: cleanDigitsL D.data := rfl
  have hcP91 : cleanDigitsL ('+' :: '9' :: '1' :: D.data) = '9' :: '1' :: cleanDigitsL D.data := rfl
  refine ⟨by rw [h1, strCat_canonical], ?_, ?_⟩
  · unfold normalize_phone
    rw [hdata91, hc91, hclean, formatCleaned_cons91 _ hlen, formatCleaned_ten _ hlen]
  · unfold normalize_phone
    rw [hdataP91, hcP91, hclean, formatCleaned_cons91 _ hlen, formatCleaned_ten _ hlen]

/-- Witness for C3 at the concrete ten-digit input `"9876543210"`. -/
theorem c3_witness :
    normalize_phone "9876543210"
      = "+91 " ++ (⟨"9876543210".data.take 5⟩ : String) ++ " " ++ (⟨"9876543210".data.drop 5⟩ : String)
    ∧ normalize_phone ("91" ++ "9876543210") = normalize_phone "9876543210"
    ∧ normalize_phone ("+91" ++ "9876543210") = normalize_phone "9876543210" :=
  c3_normalize_canonical "9876543210" (by decide) (by decide)

/-- Claim C9: the 13-digit branch of the normalizer strips the
prefix-plus-code and applies the same 5+5 split whenever its condition
holds of the cleaned string, and every input whose cleaned digit form
matches none of the 10-, 12- or 13-digit cases is returned as the
cleaned digit string unchanged.  Note the 13-digit condition can never
hold of an actual `cleanDigitsL` output, which contains no `'+'`. -/
theorem c9_thirteen_branch_and_fallthrough :
    (∀ c : List Char, c.length = 13 → c.take 3 = ['+', '9', '1'] →
      formatCleaned c = '+' :: '9' :: '1' :: ' ' :: ((c.drop 3).take 5 ++ ' ' :: c.drop 8))
    ∧ (∀ s : String,
      ¬(cleanDigitsL s.data).length = 10 →
      ¬((cleanDigitsL s.data).length = 12 ∧ (cleanDigitsL s.data).take 2 = ['9', '1']) →
      ¬((cleanDigitsL s.data).length = 13 ∧ (cleanDigitsL s.data).take 3 = ['+', '9', '1']) →
      normalize_phone s = (⟨cleanDigitsL s.data⟩ : String)) := by
  constructor
  · intro c h13 htake
    unfold formatCleaned
    rw [if_neg (by omega), if_neg (by rintro ⟨h, _⟩; omega), if_pos ⟨h13, htake⟩]
  · intro s hn10 hn12 hn13
    unfold normalize_phone formatCleaned
    rw [if_neg hn10, if_neg hn12, if_neg hn13]

/-- Witness for C9: the 13-character list `"+911234567890"` exercises the
13-digit branch, and the 11-digit input `"12345678901"` exercises the
fallthrough. -/
theorem c9_witness :
    formatCleaned "+911234567890".data
      = '+' :: '9' :: '1' :: ' ' ::
        (("+911234567890".data.drop 3).take 5 ++ ' ' :: "+911234567890".data.drop 8)
    ∧ normalize_phone "12345678901" = (⟨cleanDigitsL "12345678901".data⟩ : String) :=
  ⟨c9_thirteen_branch_and_fallthrough.1 "+911234567890".data (by decide) (by decide),
   c9_thirteen_branch_and_fallthrough.2 "12345678901" (by decide) (by decide) (by decide)⟩

/-- Claim C1: for an unverified chat submitting a contact payload, the
verification step succeeds iff the normalized number is in the allowed
set; on success a verification record for the chat id is persisted, and
on failure the ledger is unchanged.  `writeFails := false` models the
normal ledger operation the claim describes (C6 covers write failure). -/
theorem c1_verify_contact_correct (allowed_numbers : List String) (st : LedgerState)
    (chat_id : Int) (phone_number now : String)
    (hunv : is_user_verified false st chat_id = false) :
    ((verify_contact false allowed_numbers st chat_id phone_number now).1 = true ↔
      allowed_numbers.contains (normalize_phone phone_number) = true)
    ∧ ((verify_contact false allowed_numbers st chat_id phone_number now).1 = true →
      getItem (verify_contact false allowed_numbers st chat_id phone_number now).2 chat_id
        = some ⟨chat_id, normalize_phone phone_number, now⟩)
    ∧ ((verify_contact false allowed_numbers st chat_id phone_number now).1 = false →
      (verify_contact false allowed_numbers st chat_id phone_number now).2 = st) := by
  unfold verify_contact save_verified_user
  cases hc : allowed_numbers.contains (normalize_phone phone_number) <;>
    simp [hc, getItem, List.find?]

/-- Witness for C1: the number `"9876543210"` against the allow-list
containing exactly its canonical form, starting from the empty ledger. -/
theorem c1_witness :
    ((verify_contact false ["+91 98765 43210"] [] 1 "9876543210" "2024-01-01").1 = true ↔
      (["+91 98765 43210"].contains (normalize_phone "9876543210")) = true)
    ∧ ((verify_contact false ["+91 98765 43210"] [] 1 "9876543210" "2024-01-01").1 = true →
      getItem (verify_contact false ["+91 98765 43210"] [] 1 "9876543210" "2024-01-01").2 1
        = some ⟨1, normalize_phone "9876543210", "2024-01-01"⟩)
    ∧ ((verify_contact false ["+91 98765 43210"] [] 1 "9876543210" "2024-01-01").1 = false →
      (verify_contact false ["+91 98765 43210"] [] 1 "9876543210" "2024-01-01").2 = []) :=
  c1_verify_contact_correct ["+91 98765 43210"] [] 1 "9876543210" "2024-01-01" (by decide)

/-- Counterexample to C6 as stated: with a failing ledger write
(`writeFails := true`), a matching contact still yields the reported
verification success (`verifiedMsg` is sent) although no record was
persisted — the failed write is swallowed rather than treated as "not
verified". -/
theorem c6_counterexample :
    lambda_handler false true ["+91 98765 43210"] [] "t" []
      (.message ⟨some (.jsonInt 7), none, some ⟨some 7, "9876543210"⟩⟩)
    = ⟨200, [.sendMessage 7 verifiedMsg], []⟩ := by
  decide

/-- Claim C6 as amended: the verification check reports unverified on a
read failure, but a failed ledger write is swallowed: `verify_contact`
still reports success for an allowed number while persisting nothing. -/
theorem c6_ledger_failure_behavior :
    (∀ (st : LedgerState) (chat_id : Int), is_user_verified true st chat_id = false)
    ∧ (∀ (allowed_numbers : List String) (st : LedgerState) (chat_id : Int)
        (phone_number now : String),
      allowed_numbers.contains (normalize_phone phone_number) = true →
      (verify_contact true allowed_numbers st chat_id phone_number now).1 = true
      ∧ (verify_contact true allowed_numbers st chat_id phone_number now).2 = st) := by
  constructor
  · intro st chat_id
    rfl
  · intro allowed_numbers st chat_id phone_number now h
    have hm : normalize_phone phone_number ∈ allowed_numbers := by simpa using h
    unfold verify_contact save_verified_user
    simp [hm]

/-- Witness for the amended C6 at concrete inputs. -/
theorem c6_witness :
    is_user_verified true [⟨3, "p", "t"⟩] 3 = false
    ∧ ((verify_contact true ["+91 98765 43210"] [] 1 "9876543210" "t").1 = true
      ∧ (verify_contact true ["+91 98765 43210"] [] 1 "9876543210" "t").2 = []) :=
  ⟨c6_ledger_failure_behavior.1 [⟨3, "p", "t"⟩] 3,
   c6_ledger_failure_behavior.2 ["+91 98765 43210"] [] 1 "9876543210" "t" (by decide)⟩

/-- Claim C4: for a lower-case category token, `get_contacts` replies
with exactly the rows whose trimmed, lower-cased category equals the
token, in load order; if none matches, the "no contacts found" message
naming the category is sent instead. -/
theorem c4_category_dispatch (contacts_df : List ContactRow) (chat_id : Int)
    (category : String) (hlow : pyLower category = category) :
    (contacts_df.filter (specCategoryMatches category) = [] →
      get_contacts contacts_df chat_id category
        = [.sendMessage chat_id (noContactsMsg category)])
    ∧ (contacts_df.filter (specCategoryMatches category) ≠ [] →
      get_contacts contacts_df chat_id category
        = [.sendMessage chat_id
            (contactsMsg category (contacts_df.filter (specCategoryMatches category)))]) := by
  have hfun : categoryMatches category = specCategoryMatches category := by
    funext r
    unfold categoryMatches specCategoryMatches
    rw [hlow]
  constructor
  · intro he
    unfold get_contacts
    rw [hfun, he]
    rfl
  · intro hne
    unfold get_contacts
    rw [hfun, if_neg (by simp [List.isEmpty_iff, hne])]

/-- Witness for C4: an empty directory gives the "no contacts found"
reply, and a one-row directory whose category matches after trimming and
lower-casing gives the composed list. -/
theorem c4_witness :
    get_contacts [] 4 "auto" = [.sendMessage 4 (noContactsMsg "auto")]
    ∧ get_contacts [⟨" Auto ", "Ravi", "9876543210"⟩] 4 "auto"
      = [.sendMessage 4 (contactsMsg "auto"
          (([⟨" Auto ", "Ravi", "9876543210"⟩] : List ContactRow).filter
            (specCategoryMatches "auto")))] :=
  ⟨(c4_category_dispatch [] 4 "auto" (by decide)).1 (by decide),
   (c4_category_dispatch [⟨" Auto ", "Ravi", "9876543210"⟩] 4 "auto" (by decide)).2 (by decide)⟩

/-- Claim C5: after any invocation of `send_document` the transient
scratch file is absent from the resulting file system, on every exit
path — success, bucket unreachable, key not found, transport failure and
any other error. -/
theorem c5_scratch_file_always_removed (fs : FileSystem) (fetch : FetchOutcome)
    (post : SendOutcome) (chat_id : Int) (file_key : String) (caption : Option String) :
    ("/tmp/" ++ basename file_key) ∉ (send_document fs fetch post chat_id file_key caption).1 := by
  unfold send_document
  cases fetch <;> cases post <;> simp [List.mem_filter]

/-! Helper lemmas about the handler. -/

lemma requestContact_not_in_get_contacts (contacts_df : List ContactRow) (cid : Int)
    (cat : String) (c : Int) : Action.requestContact c ∉ get_contacts contacts_df cid cat := by
  unfold get_contacts
  split <;> simp

lemma requestContact_not_in_handle_verified (contacts_df : List ContactRow) (cid : Int)
    (t : String) (c : Int) : Action.requestContact c ∉ handle_verified contacts_df cid t := by
  unfold handle_verified
  split
  · simp
  split
  · simp
  split
  · exact requestContact_not_in_get_contacts contacts_df cid _ c
  split
  · simp
  split <;> simp

lemma getItem_isSome_monotone (writeFails : Bool) (allowed_numbers : List String)
    (st : LedgerState) (chat_id : Int) (phone now : String) (cid : Int)
    (h : (getItem st cid).isSome = true) :
    (getItem (verify_contact writeFails allowed_numbers st chat_id phone now).2 cid).isSome
      = true := by
  unfold verify_contact save_verified_user
  split
  · split
    · exact h
    · simp only [getItem, List.find?]
      cases hb : (LedgerItem.mk chat_id (normalize_phone phone) now).chat_id == cid <;>
        simp [hb, getItem] at h ⊢
      exact h
  · exact h

/-- Claim C2: whenever the verification check reports verified for the
chat id of an incoming message, processing that message never issues the
contact-share challenge; and no invocation of the handler ever removes a
verification record, so a ledger-verified chat stays ledger-verified. -/
theorem c2_verified_never_rechallenged (readFails writeFails : Bool)
    (allowed_numbers : List String) (contacts_df : List ContactRow) (now : String)
    (st : LedgerState) (msg : IncomingMessage) (raw : ChatIdValue) (chat_id : Int)
    (hraw : msg.chat_id = some raw) (hconv : pyInt raw = some chat_id)
    (hver : is_user_verified readFails st chat_id = true) :
    (∀ c, Action.requestContact c ∉
      (lambda_handler readFails writeFails allowed_numbers contacts_df now st
        (.message msg)).actions)
    ∧ (∀ (event : Event) (cid : Int), (getItem st cid).isSome = true →
      (getItem (lambda_handler readFails writeFails allowed_numbers contacts_df now st
        event).ledger cid).isSome = true) := by
  constructor
  · intro c
    simp only [lambda_handler, hraw, hconv, hver, Bool.not_true, Bool.false_eq_true,
      if_false]
    exact requestContact_not_in_handle_verified contacts_df chat_id _ c
  · intro event cid h
    cases event with
    | noBody => exact h
    | badJson => exact h
    | message m =>
      rcases m with ⟨cidopt, textopt, contactopt⟩
      cases cidopt with
      | none => exact h
      | some r =>
        cases hpi : pyInt r with
        | none => simp only [lambda_handler, hpi]; exact h
        | some cid2 =>
          simp only [lambda_handler, hpi]
          cases hv : is_user_verified readFails st cid2 with
          | true =>
            simp only [hv, Bool.not_true, Bool.false_eq_true, if_false]
            exact h
          | false =>
            simp only [hv, Bool.not_false, if_true]
            cases contactopt with
            | none => exact h
            | some c =>
              simp only [handle_unverified]
              split
              · rcases hvc : verify_contact writeFails allowed_numbers st cid2 c.phone_number now
                  with ⟨b, st2⟩
                have hmono := getItem_isSome_monotone writeFails allowed_numbers st cid2
                  c.phone_number now cid h
                rw [hvc] at hmono
                cases b <;> simpa using hmono
              · exact h

/-- Witness for C2: a ledger-verified chat sending plain text is not
challenged, and its record survives an unrelated invocation. -/
theorem c2_witness :
    Action.requestContact 7 ∉
      (lambda_handler false false [] [] "t" [⟨7, "+91 98765 43210", "t0"⟩]
        (.message ⟨some (.jsonInt 7), some "hi", none⟩)).actions
    ∧ (getItem (lambda_handler false false [] [] "t" [⟨7, "+91 98765 43210", "t0"⟩]
        Event.noBody).ledger 7).isSome = true :=
  ⟨(c2_verified_never_rechallenged false false [] [] "t" [⟨7, "+91 98765 43210", "t0"⟩]
      ⟨some (.jsonInt 7), some "hi", none⟩ (.jsonInt 7) 7 rfl rfl (by decide)).1 7,
   (c2_verified_never_rechallenged false false [] [] "t" [⟨7, "+91 98765 43210", "t0"⟩]
      ⟨some (.jsonInt 7), some "hi", none⟩ (.jsonInt 7) 7 rfl rfl (by decide)).2
     Event.noBody 7 (by decide)⟩

lemma handle_verified_slash_start (contacts_df : List ContactRow) (cid : Int) :
    handle_verified contacts_df cid "/start" = [.sendMessage cid welcomeBackMsg] := by
  unfold handle_verified
  rw [if_pos rfl]

lemma handle_verified_bare_start (contacts_df : List ContactRow) (cid : Int) :
    handle_verified contacts_df cid "start" = [.sendMessage cid (unrecognizedMsg "start")] := by
  unfold handle_verified
  rw [if_neg (by decide), if_neg (by decide), if_neg (by decide), if_neg (by decide),
    if_neg (by decide)]

lemma lambda_handler_verified_actions (readFails writeFails : Bool)
    (allowed_numbers : List String) (contacts_df : List ContactRow) (now : String)
    (st : LedgerState) (msg : IncomingMessage) (raw : ChatIdValue) (chat_id : Int)
    (hraw : msg.chat_id = some raw) (hconv : pyInt raw = some chat_id)
    (hver : is_user_verified readFails st chat_id = true) :
    (lambda_handler readFails writeFails allowed_numbers contacts_df now st
        (.message msg)).actions
      = handle_verified contacts_df chat_id (pyLower (pyStrip (msg.text.getD ""))) := by
  simp only [lambda_handler, hraw, hconv, hver, Bool.not_true, Bool.false_eq_true, if_false]

/-- Counterexample to C7 as stated: a verified chat sending the bare
token `"start"` (no leading command marker) receives the
unrecognized-command reply, not the welcome-back acknowledgment. -/
theorem c7_counterexample :
    (lambda_handler false false [] [] "t" [⟨5, "+91 98765 43210", "t0"⟩]
        (.message ⟨some (.jsonInt 5), some "start", none⟩)).actions
      = [.sendMessage 5 (unrecognizedMsg "start")]
    ∧ Action.sendMessage 5 welcomeBackMsg ∉
      (lambda_handler false false [] [] "t" [⟨5, "+91 98765 43210", "t0"⟩]
        (.message ⟨some (.jsonInt 5), some "start", none⟩)).actions := by
  constructor
  · decide
  · decide

/-- Claim C7 as amended: the welcome-back acknowledgment is sent exactly
when the stripped, lower-cased text equals the literal `"/start"` with
its marker; the bare token `"start"` instead falls through to the
unrecognized-command reply. -/
theorem c7_start_requires_marker (readFails writeFails : Bool)
    (allowed_numbers : List String) (contacts_df : List ContactRow) (now : String)
    (st : LedgerState) (msg : IncomingMessage) (raw : ChatIdValue) (chat_id : Int)
    (t : String) (hraw : msg.chat_id = some raw) (hconv : pyInt raw = some chat_id)
    (hver : is_user_verified readFails st chat_id = true) (htext : msg.text = some t) :
    (pyLower (pyStrip t) = "/start" →
      (lambda_handler readFails writeFails allowed_numbers contacts_df now st
          (.message msg)).actions
        = [.sendMessage chat_id welcomeBackMsg])
    ∧ (pyLower (pyStrip t) = "start" →
      (lambda_handler readFails writeFails allowed_numbers contacts_df now st
          (.message msg)).actions
        = [.sendMessage chat_id (unrecognizedMsg "start")]) := by
  have hact := lambda_handler_verified_actions readFails writeFails allowed_numbers
    contacts_df now st msg raw chat_id hraw hconv hver
  rw [htext] at hact
  constructor
  · intro hs
    rw [hact]
    simp only [Option.getD_some, hs]
    exact handle_verified_slash_start contacts_df chat_id
  · intro hs
    rw [hact]
    simp only [Option.getD_some, hs]
    exact handle_verified_bare_start contacts_df chat_id

/-- Witness for the amended C7: the verified chat 5 sending `" /START "`
receives the welcome-back message, and sending `"start"` receives the
unrecognized-command reply. -/
theorem c7_witness :
    (lambda_handler false false [] [] "t" [⟨5, "+91 98765 43210", "t0"⟩]
        (.message ⟨some (.jsonInt 5), some " /START ", none⟩)).actions
      = [.sendMessage 5 welcomeBackMsg]
    ∧ (lambda_handler false false [] [] "t" [⟨5, "+91 98765 43210", "t0"⟩]
        (.message ⟨some (.jsonInt 5), some "start", none⟩)).actions
      = [.sendMessage 5 (unrecognizedMsg "start")] :=
  ⟨(c7_start_requires_marker false false [] [] "t" [⟨5, "+91 98765 43210", "t0"⟩]
      ⟨some (.jsonInt 5), some " /START ", none⟩ (.jsonInt 5) 5 " /START "
      rfl rfl (by decide) rfl).1 (by decide),
   (c7_start_requires_marker false false [] [] "t" [⟨5, "+91 98765 43210", "t0"⟩]
      ⟨some (.jsonInt 5), some "start", none⟩ (.jsonInt 5) 5 "start"
      rfl rfl (by decide) rfl).2 (by decide)⟩

/-- Counterexample to C8 as stated: a verified chat sending
`"HELLO WORLD"` receives the unrecognized-command reply echoing the
lower-cased `"hello world"`, not the text as the sender wrote it. -/
theorem c8_counterexample :
    (lambda_handler false false [] [] "t" [⟨5, "+91 98765 43210", "t0"⟩]
        (.message ⟨some (.jsonInt 5), some "HELLO WORLD", none⟩)).actions
      = [.sendMessage 5 (unrecognizedMsg "hello world")]
    ∧ Action.sendMessage 5 (unrecognizedMsg "HELLO WORLD") ∉
      (lambda_handler false false [] [] "t" [⟨5, "+91 98765 43210", "t0"⟩]
        (.message ⟨some (.jsonInt 5), some "HELLO WORLD", none⟩)).actions := by
  constructor
  · decide
  · decide

/-- Claim C8 as amended: when a verified chat's message matches no
dispatcher branch, the reply is the unrecognized-command message echoing
the stripped, lower-cased message text (not the text as the sender wrote
it). -/
theorem c8_unrecognized_echoes_lowercased (readFails writeFails : Bool)
    (allowed_numbers : List String) (contacts_df : List ContactRow) (now : String)
    (st : LedgerState) (msg : IncomingMessage) (raw : ChatIdValue) (chat_id : Int)
    (t : String) (hraw : msg.chat_id = some raw) (hconv : pyInt raw = some chat_id)
    (hver : is_user_verified readFails st chat_id = true) (htext : msg.text = some t)
    (h1 : pyLower (pyStrip t) ≠ "/start")
    (h2 : pyLower (pyStrip t) ≠ "")
    (h3 : contact_categories.contains (stripSlash (pyLower (pyStrip t))) = false)
    (h4 : stripSlash (pyLower (pyStrip t)) ≠ "wastemanagementpdf")
    (h5 : stripSlash (pyLower (pyStrip t)) ≠ "help") :
    (lambda_handler readFails writeFails allowed_numbers contacts_df now st
        (.message msg)).actions
      = [.sendMessage chat_id (unrecognizedMsg (pyLower (pyStrip t)))] := by
  have hact := lambda_handler_verified_actions readFails writeFails allowed_numbers
    contacts_df now st msg raw chat_id hraw hconv hver
  rw [htext] at hact
  rw [hact]
  simp only [Option.getD_some]
  unfold handle_verified
  rw [if_neg h1, if_neg h2, if_neg (by simpa using h3), if_neg h4, if_neg h5]

/-- Witness for the amended C8 at the concrete text `" FooBar "`. -/
theorem c8_witness :
    (lambda_handler false false [] [] "t" [⟨5, "+91 98765 43210", "t0"⟩]
        (.message ⟨some (.jsonInt 5), some " FooBar ", none⟩)).actions
      = [.sendMessage 5 (unrecognizedMsg (pyLower (pyStrip " FooBar ")))] :=
  c8_unrecognized_echoes_lowercased false false [] [] "t" [⟨5, "+91 98765 43210", "t0"⟩]
    ⟨some (.jsonInt 5), some " FooBar ", none⟩ (.jsonInt 5) 5 " FooBar "
    rfl rfl (by decide) rfl (by decide) (by decide) (by decide) (by decide) (by decide)

/-- Claim C10: when the message carries a chat id that is present but not
convertible to an integer, the handler returns the 500 internal-error
response with no gate or dispatcher action and an unchanged ledger (the
apology attempt re-raises on the same conversion and is swallowed). -/
theorem c10_unconvertible_chat_id (readFails writeFails : Bool)
    (allowed_numbers : List String) (contacts_df : List ContactRow) (now : String)
    (st : LedgerState) (msg : IncomingMessage) (raw : ChatIdValue)
    (hraw : msg.chat_id = some raw) (hconv : pyInt raw = none) :
    lambda_handler readFails writeFails allowed_numbers contacts_df now st (.message msg)
      = ⟨500, [], st⟩ := by
  simp only [lambda_handler, hraw, hconv]

/-- Witness for C10 at the concrete non-numeric chat id `"12a"`. -/
theorem c10_witness :
    lambda_handler false false [] [] "t" []
        (.message ⟨some (.jsonStr "12a"), some "hi", none⟩)
      = ⟨500, [], []⟩ :=
  c10_unconvertible_chat_id false false [] [] "t" []
    ⟨some (.jsonStr "12a"), some "hi", none⟩ (.jsonStr "12a") rfl (by decide)

end Bot
